import Mathlib

/-!
Verification development for the identity-verification and token-issuance
pipeline of the `integ` backend.

The Python sources are shallowly embedded as executable Lean definitions:

* `src/backend/auth/jwt.py`   — token mint/verify (`create_access_token`,
  `verify_access_token`);
* `src/backend/auth/steam.py` — login-URL construction, OpenID callback
  verification and profile fetch (`SteamProvider`);
* `src/backend/api/auth.py`   — the orchestrating callback handler
  (`steam_callback`).

Modelling conventions:

* Machine-level details that the properties do not depend on are made
  explicit rather than simplified away: the ambient UTC clock read by the
  code becomes an explicit `now : Int` argument (seconds since the epoch),
  outbound HTTP calls become explicit oracle arguments
  (`Params → HttpResponse`), and process environment variables become
  explicit arguments or the defaults hard-coded in the source.
* HMAC-SHA256 signing performed by the `jose` library is modelled
  symbolically as the injective function `jwtSign key alg payload =
  (key, alg, payload)`: the library verifies a token by recomputing the
  MAC over the signing input (which covers the header's `alg` and the
  payload) with its own key and comparing, which is exactly equality
  against `jwtSign` in the symbolic model.
* A Python `dict` is a `List (String × String)` in insertion order;
  updating an existing key keeps its position (`dictSet`), as in CPython.
* An exception that the Python code does not catch is an `Except.error`;
  a caught exception path that returns `None` is `Except.ok none`.
-/

/-! ### Embedding of src/backend/auth/jwt.py -/

/-- `SECRET_KEY = os.getenv("SECRET_KEY", "your-secret-key-change-in-production")`:
the environment default from the source. -/
def SECRET_KEY : String := "your-secret-key-change-in-production"

/-- `ALGORITHM = os.getenv("ALGORITHM", "HS256")`. -/
def ALGORITHM : String := "HS256"

/-- `ACCESS_TOKEN_EXPIRE_MINUTES = int(os.getenv(..., "30"))`. -/
def ACCESS_TOKEN_EXPIRE_MINUTES : Int := 30

/-- The claim set a JWT payload may carry; each claim may be absent, as a
Python dict key may be missing (`payload.get(...)` returning `None`).
`exp` is the integer UNIX timestamp `jose` stores for a datetime. -/
structure JwtPayload where
  user_id : Option Int
  provider : Option String
  exp : Option Int
deriving DecidableEq

/-- Symbolic model of the HMAC the `jose` library computes over the token's
signing input (header and payload): an injective tuple of key, header
algorithm and payload. -/
def jwtSign (key : String) (alg : String) (p : JwtPayload) :
    String × String × JwtPayload :=
  (key, alg, p)

/-- A token string as `jose` sees it: either it parses into a JWS whose
header names `alg` and that carries a payload and a signature, or it is
structurally malformed (truncated, wrong segment count, bad base64, ...) and
every decode attempt raises `JWTError`. -/
inductive Jwt where
  | signed (alg : String) (payload : JwtPayload) (sig : String × String × JwtPayload)
  | malformed (raw : String)
deriving DecidableEq

/-- `jose.jwt.decode(token, key, algorithms=[ALGORITHM])` at ambient UTC time
`now`: parse, check the header algorithm is allowed, verify the signature by
recomputing it, then reject an `exp` claim strictly in the past (`exp < now`,
zero leeway). `none` models a raised `JWTError`. -/
def joseDecode (key : String) (now : Int) : Jwt → Option JwtPayload
  | .signed alg p sig =>
      if alg = ALGORITHM ∧ sig = jwtSign key alg p then
        match p.exp with
        | some e => if e < now then none else some p
        | none => some p
      else none
  | .malformed _ => none

/-- `expires_delta if expires_delta is not None else timedelta(minutes=ACCESS_TOKEN_EXPIRE_MINUTES)`,
in seconds. -/
def tokenDelta (expires_delta : Option Int) : Int :=
  match expires_delta with
  | some d => d
  | none => 60 * ACCESS_TOKEN_EXPIRE_MINUTES

/-- `create_access_token(user_id, provider, expires_delta)` from
src/backend/auth/jwt.py, with the ambient clock `datetime.now(timezone.utc)`
made explicit as `now`: sets `exp = now + delta` and signs
`{user_id, provider, exp}` with `SECRET_KEY` under `ALGORITHM`. -/
def create_access_token (user_id : Int) (provider : String)
    (expires_delta : Option Int) (now : Int) : Jwt :=
  let payload : JwtPayload :=
    ⟨some user_id, some provider, some (now + tokenDelta expires_delta)⟩
  .signed ALGORITHM payload (jwtSign SECRET_KEY ALGORITHM payload)

/-- The pydantic `TokenData` model: the claims `verify_access_token` returns. -/
structure TokenData where
  user_id : Int
  provider : String
  exp : Int
deriving DecidableEq

/-- `verify_access_token(token)` from src/backend/auth/jwt.py at ambient UTC
time `now`. A raised-and-caught `JWTError` and a missing `user_id`/`provider`
claim both return `None` (`Except.ok none`). A decoded payload with
`user_id` and `provider` present but no `exp` would reach
`datetime.fromtimestamp(None)`, a `TypeError` the function does not catch:
that is the `Except.error` branch. -/
def verify_access_token (token : Jwt) (now : Int) :
    Except String (Option TokenData) :=
  match joseDecode SECRET_KEY now token with
  | none => .ok none
  | some payload =>
    match payload.user_id, payload.provider with
    | some u, some pr =>
      match payload.exp with
      | some e => .ok (some ⟨u, pr, e⟩)
      | none => .error "TypeError: fromtimestamp(None)"
    | _, _ => .ok none

/-! ### Embedding of src/backend/auth/steam.py -/

/-- A Python `dict[str, str]` in insertion order. -/
abbrev Params := List (String × String)

/-- `d[k] = v` on a CPython dict: an existing key keeps its position and
gets the new value; a new key is appended. -/
def dictSet (d : Params) (k v : String) : Params :=
  if d.any (fun p => p.1 = k) then
    d.map (fun p => if p.1 = k then (k, v) else p)
  else d ++ [(k, v)]

/-- `d.get(k)`: the value of the first (only) binding of `k`. -/
def dictGet (d : Params) (k : String) : Option String :=
  match d.find? (fun p => p.1 = k) with
  | some p => some p.2
  | none => none

/-- `d.get(k, default)`. -/
def dictGetD (d : Params) (k : String) (dflt : String) : String :=
  (dictGet d k).getD dflt

/-- `STEAM_OPENID_URL` from the source. -/
def STEAM_OPENID_URL : String := "https://steamcommunity.com/openid/login"

/-- The plain-text HTTP response the Steam OpenID endpoint returns to the
verification POST, as `verify_callback` observes it. -/
structure HttpResponse where
  status_code : Nat
  text : String

/-- `key.startswith("openid.")` at the character level: `pre` is a prefix
of `s`. -/
def pyStartsWith (s pre : String) : Bool :=
  pre.data.isPrefixOf s.data

/-- `needle in hay` on `List Char`: some position of `hay` starts with
`needle` (Python's substring containment). -/
def containsSub (needle : List Char) : List Char → Bool
  | [] => needle.isEmpty
  | c :: cs => needle.isPrefixOf (c :: cs) || containsSub needle cs

/-- `needle in hay` on strings. -/
def strContains (hay needle : String) : Bool :=
  containsSub needle.data hay.data

/-- The literal characters of the fixed pattern text `steamid/`. -/
def steamidPat : List Char := "steamid/".data

/-- The codepoint ranges of Unicode general category Nd (decimal digit),
Unicode 14.0 as shipped with CPython 3.11: the exact character class the
`re` module's `\d` matches on a `str` pattern without `re.ASCII`. -/
def ndRanges : List (Nat × Nat) :=
  [(0x30, 0x39), (0x660, 0x669), (0x6F0, 0x6F9), (0x7C0, 0x7C9),
   (0x966, 0x96F), (0x9E6, 0x9EF), (0xA66, 0xA6F), (0xAE6, 0xAEF),
   (0xB66, 0xB6F), (0xBE6, 0xBEF), (0xC66, 0xC6F), (0xCE6, 0xCEF),
   (0xD66, 0xD6F), (0xDE6, 0xDEF), (0xE50, 0xE59), (0xED0, 0xED9),
   (0xF20, 0xF29), (0x1040, 0x1049), (0x1090, 0x1099), (0x17E0, 0x17E9),
   (0x1810, 0x1819), (0x1946, 0x194F), (0x19D0, 0x19D9), (0x1A80, 0x1A89),
   (0x1A90, 0x1A99), (0x1B50, 0x1B59), (0x1BB0, 0x1BB9), (0x1C40, 0x1C49),
   (0x1C50, 0x1C59), (0xA620, 0xA629), (0xA8D0, 0xA8D9), (0xA900, 0xA909),
   (0xA9D0, 0xA9D9), (0xA9F0, 0xA9F9), (0xAA50, 0xAA59), (0xABF0, 0xABF9),
   (0xFF10, 0xFF19), (0x104A0, 0x104A9), (0x10D30, 0x10D39), (0x11066, 0x1106F),
   (0x110F0, 0x110F9), (0x11136, 0x1113F), (0x111D0, 0x111D9), (0x112F0, 0x112F9),
   (0x11450, 0x11459), (0x114D0, 0x114D9), (0x11650, 0x11659), (0x116C0, 0x116C9),
   (0x11730, 0x11739), (0x118E0, 0x118E9), (0x11950, 0x11959), (0x11C50, 0x11C59),
   (0x11D50, 0x11D59), (0x11DA0, 0x11DA9), (0x16A60, 0x16A69), (0x16AC0, 0x16AC9),
   (0x16B50, 0x16B59), (0x1D7CE, 0x1D7FF), (0x1E140, 0x1E149), (0x1E2F0, 0x1E2F9),
   (0x1E950, 0x1E959), (0x1FBF0, 0x1FBF9)]

/-- `\d` on one character: a Unicode decimal digit (category Nd). ASCII
`0`-`9` is the first range. -/
def isUnicodeDigit (c : Char) : Bool :=
  ndRanges.any (fun r => r.1 ≤ c.toNat ∧ c.toNat ≤ r.2)

/-- `re.search(r"steamid/(\d+)$", s)`: scan left to right for an occurrence
of `steamid/` followed by one or more digits that reach the end of the
string, where — as in Python — `$` also matches just before one newline at
the very end; return the digit run (the captured group). `\d` is the
Unicode decimal-digit class `isUnicodeDigit`. -/
def searchSteamId : List Char → Option (List Char)
  | [] => none
  | c :: cs =>
      if steamidPat.isPrefixOf (c :: cs) then
        let rest := (c :: cs).drop steamidPat.length
        let core := if rest.getLast? = some '\n' then rest.dropLast else rest
        if core ≠ [] ∧ core.all isUnicodeDigit then some core
        else searchSteamId cs
      else searchSteamId cs

/-- The verification parameter set `verify_callback` POSTs back to Steam:
start from `{openid.ns ↦ <namespace>, openid.mode ↦ "check_auth"}`, then
copy every `openid.*`-prefixed callback parameter into the dict (an
existing key — including `openid.mode` — is overwritten). -/
def build_verification_params (query_params : Params) : Params :=
  query_params.foldl
    (fun acc kv =>
      if pyStartsWith kv.1 "openid." then dictSet acc kv.1 kv.2 else acc)
    [("openid.ns", "http://specs.openid.net/auth/2.0"),
     ("openid.mode", "check_auth")]

namespace SteamProvider

/-- `SteamProvider.verify_callback(query_params)` with the outbound POST to
`STEAM_OPENID_URL` made explicit as the oracle `post`: build the
verification parameters, POST them, reject unless the status is 200 and the
body contains `is_valid:true`, then extract the digit run after `steamid/`
at the end of `openid.claimed_id` (default `""`). -/
def verify_callback (query_params : Params)
    (post : Params → HttpResponse) : Option String :=
  let verification_params := build_verification_params query_params
  let response := post verification_params
  if response.status_code != 200 || !(strContains response.text "is_valid:true") then
    none
  else
    let claimed_id := dictGetD query_params "openid.claimed_id" ""
    match searchSteamId claimed_id.data with
    | some ds => some (String.mk ds)
    | none => none

end SteamProvider

/-- One record of the `players` list in the Steam profile API's JSON body;
each field a Python `dict.get` may find missing. -/
structure SteamPlayer where
  personaname : Option String
  avatarfull : Option String
deriving DecidableEq

/-- The value of the `response` key of the profile API body. -/
structure SteamApiInner where
  players : Option (List SteamPlayer)
deriving DecidableEq

/-- The parsed JSON body of the profile API response. -/
structure SteamApiBody where
  response : Option SteamApiInner
deriving DecidableEq

/-- The HTTP response of the profile API `GET`. -/
structure SteamApiResponse where
  status_code : Nat
  body : SteamApiBody
deriving DecidableEq

/-- `data.get("response", {}).get("players", [])`. -/
def playersOf (body : SteamApiBody) : List SteamPlayer :=
  match body.response with
  | none => []
  | some inner => inner.players.getD []

/-- The dict `SteamProvider.get_user_info` returns on success. -/
structure UserInfo where
  steam_id : String
  username : Option String
  avatar_url : Option String
deriving DecidableEq

namespace SteamProvider

/-- `SteamProvider.get_user_info(steam_id)` with the environment variable
`STEAM_API_KEY` (`none` = unset) and the outbound GET made explicit.
`if not STEAM_API_KEY` is true for an unset or empty credential. The
request's `include_applist` value `1` is encoded as its string form. -/
def get_user_info (steam_id : String) (STEAM_API_KEY : Option String)
    (get : Params → SteamApiResponse) : Option UserInfo :=
  if STEAM_API_KEY = none ∨ STEAM_API_KEY = some "" then none
  else
    let params : Params :=
      [("key", STEAM_API_KEY.getD ""), ("steamids", steam_id),
       ("include_applist", "1")]
    let response := get params
    if response.status_code != 200 then none
    else
      match playersOf response.body with
      | [] => none
      | player :: _ =>
        some ⟨steam_id, player.personaname, player.avatarfull⟩

end SteamProvider

/-- One hexadecimal digit, uppercase, as `urllib.parse.quote` emits. -/
def hexDigit (n : Nat) : Char :=
  if n < 10 then Char.ofNat (48 + n) else Char.ofNat (55 + n)

/-- `%XX` for one byte. -/
def percentByte (b : Nat) : List Char :=
  ['%', hexDigit (b / 16), hexDigit (b % 16)]

/-- The UTF-8 bytes of a character, by the standard arithmetic encoding. -/
def utf8Bytes (c : Char) : List Nat :=
  let n := c.toNat
  if n < 0x80 then [n]
  else if n < 0x800 then [0xC0 + n / 0x40, 0x80 + n % 0x40]
  else if n < 0x10000 then
    [0xE0 + n / 0x1000, 0x80 + (n / 0x40) % 0x40, 0x80 + n % 0x40]
  else
    [0xF0 + n / 0x40000, 0x80 + (n / 0x1000) % 0x40,
     0x80 + (n / 0x40) % 0x40, 0x80 + n % 0x40]

/-- `urllib.parse.quote_plus` on one character: ASCII alphanumerics and
`_.-~` pass through, space becomes `+`, anything else is the
percent-encoding of its UTF-8 bytes. -/
def quotePlusChar (c : Char) : List Char :=
  if c.isAlphanum ∨ c = '_' ∨ c = '.' ∨ c = '-' ∨ c = '~' then [c]
  else if c = ' ' then ['+']
  else ((utf8Bytes c).map percentByte).flatten

/-- `quote_plus` on a character list. -/
def qpList (l : List Char) : List Char :=
  (l.map quotePlusChar).flatten

/-- `urllib.parse.quote_plus` on a string. -/
def quote_plus (s : String) : String :=
  String.mk (qpList s.data)

/-- `urllib.parse.urlencode(params)` with the default `quote_via`
behaviour: `k=v` pairs, each side quoted, joined by `&`. -/
def urlencode (params : Params) : String :=
  String.intercalate "&"
    (params.map (fun kv => quote_plus kv.1 ++ "=" ++ quote_plus kv.2))

/-- The parameter dict `get_login_url` builds, with the environment-sourced
`BACKEND_URL` explicit. -/
def login_params (BACKEND_URL : String) : Params :=
  [("openid.ns", "http://specs.openid.net/auth/2.0"),
   ("openid.mode", "checkid_setup"),
   ("openid.return_to", BACKEND_URL ++ "/auth/steam/callback"),
   ("openid.realm", BACKEND_URL),
   ("openid.identity", "http://specs.openid.net/auth/2.0/identifier_select"),
   ("openid.claimed_id", "http://specs.openid.net/auth/2.0/identifier_select")]

namespace SteamProvider

/-- `SteamProvider.get_login_url()` with `BACKEND_URL` explicit
(`os.getenv("BACKEND_URL", "http://localhost:8000")` in the source):
the fixed Steam endpoint, `?`, and the url-encoded parameters. -/
def get_login_url (BACKEND_URL : String) : String :=
  STEAM_OPENID_URL ++ "?" ++ urlencode (login_params BACKEND_URL)

end SteamProvider

/-! ### Embedding of src/backend/api/auth.py (steam_callback) -/

/-- The columns of the `users` table that the callback handler touches. -/
structure DbUser where
  id : Int
  steam_id : Option String
  username : Option String
  avatar_url : Option String
deriving DecidableEq

/-- `HTTPException(status_code, detail)`. -/
structure HttpError where
  status_code : Nat
  detail : String
deriving DecidableEq

/-- The `LoginResponse` pydantic model returned on success. `username` is
kept optional here because the user row's column is nullable; pydantic
would reject a `None` at response time, a path outside these claims. -/
structure LoginResponse where
  access_token : Jwt
  token_type : String
  user_id : Int
  username : Option String
deriving DecidableEq

/-- The side effects `steam_callback` performs after the verification step,
in program order: the Steam profile fetch and the database operations. -/
inductive AuthEffect where
  | profileFetch (steam_id : String)
  | dbQueryUser (steam_id : String)
  | dbAdd
  | dbCommit
  | dbRefresh
deriving DecidableEq

/-- `steam_callback(request, db)` from src/backend/api/auth.py, with the
outbound calls and ambient state explicit: `post` is the verification
round-trip inside `verify_callback`, `api_key`/`get` feed `get_user_info`,
`db` is the users table in row order, `next_id` the id the database would
assign to an inserted row, and `now` the mint-time clock. Returns the
handler's outcome (an `HTTPException` or the response plus the updated
table) paired with the list of post-verification effects in program
order. -/
def steam_callback (query_params : Params)
    (post : Params → HttpResponse)
    (api_key : Option String) (get : Params → SteamApiResponse)
    (db : List DbUser) (next_id : Int) (now : Int) :
    Except HttpError (LoginResponse × List DbUser) × List AuthEffect :=
  match SteamProvider.verify_callback query_params post with
  | none => (.error ⟨401, "Steam verification failed"⟩, [])
  | some steam_id =>
    match SteamProvider.get_user_info steam_id api_key get with
    | none => (.error ⟨500, "Failed to fetch Steam user info"⟩,
               [.profileFetch steam_id])
    | some user_info =>
      match db.find? (fun u => u.steam_id = some steam_id) with
      | none =>
        let user : DbUser :=
          ⟨next_id, some steam_id, user_info.username, user_info.avatar_url⟩
        let token := create_access_token user.id "steam" none now
        (.ok (⟨token, "bearer", user.id, user.username⟩, db ++ [user]),
         [.profileFetch steam_id, .dbQueryUser steam_id,
          .dbAdd, .dbCommit, .dbRefresh])
      | some u =>
        let user : DbUser :=
          { u with username := user_info.username,
                   avatar_url := user_info.avatar_url }
        let token := create_access_token user.id "steam" none now
        (.ok (⟨token, "bearer", user.id, user.username⟩,
              db.map (fun x => if x.id = u.id then user else x)),
         [.profileFetch steam_id, .dbQueryUser steam_id, .dbCommit])

/-! ### Theorems for the token codec -/

/-- Claim C2: for every integer user id, every provider string and every
ttl > 0, verifying a token immediately after minting it (same clock value)
succeeds and returns claims whose `user_id` and `provider` equal the minted
inputs (and whose `exp` is `now + ttl`). -/
theorem verify_after_mint (u : Int) (pr : String) (ttl now : Int)
    (h : 0 < ttl) :
    verify_access_token (create_access_token u pr (some ttl) now) now =
      Except.ok (some ⟨u, pr, now + ttl⟩) := by
  have hlt : ¬ (now + ttl < now) := by omega
  simp [verify_access_token, create_access_token, joseDecode, tokenDelta, hlt]

/-- Witness for C2 at `user_id = 7`, `provider = "steam"`, `ttl = 1800 s`,
`now = 1000`. -/
theorem verify_after_mint_witness :
    verify_access_token (create_access_token 7 "steam" (some 1800) 1000) 1000 =
      Except.ok (some ⟨7, "steam", 1000 + 1800⟩) :=
  verify_after_mint 7 "steam" 1800 1000 (by decide)

/-- Claim C3: `verify_access_token` returns the single Invalid verdict
(`None`, i.e. `Except.ok none`) for a token whose signature is altered, for
a structurally malformed/truncated token, for a token signed with a
different secret, and for a token missing the `user_id` or `provider`
claim; the verdict is literally the same value in all four cases, so the
caller cannot distinguish the cause. -/
theorem invalid_token_single_verdict :
    (∀ (p : JwtPayload) (sig : String × String × JwtPayload) (now : Int),
        sig ≠ jwtSign SECRET_KEY ALGORITHM p →
        verify_access_token (Jwt.signed ALGORITHM p sig) now = Except.ok none)
  ∧ (∀ (raw : String) (now : Int),
        verify_access_token (Jwt.malformed raw) now = Except.ok none)
  ∧ (∀ (key : String) (p : JwtPayload) (now : Int),
        key ≠ SECRET_KEY →
        verify_access_token
          (Jwt.signed ALGORITHM p (jwtSign key ALGORITHM p)) now =
          Except.ok none)
  ∧ (∀ (p : JwtPayload) (now : Int),
        p.user_id = none ∨ p.provider = none →
        verify_access_token
          (Jwt.signed ALGORITHM p (jwtSign SECRET_KEY ALGORITHM p)) now =
          Except.ok none) := by
  refine ⟨?_, ?_, ?_, ?_⟩
  · intro p sig now hsig
    simp [verify_access_token, joseDecode, hsig]
  · intro raw now
    simp [verify_access_token, joseDecode]
  · intro key p now hkey
    simp [verify_access_token, joseDecode, jwtSign, hkey]
  · intro p now h
    obtain ⟨uid, prov, ex⟩ := p
    simp only [JwtPayload.user_id, JwtPayload.provider] at h
    rcases h with h | h <;> subst h
    · rcases ex with _ | e
      · simp [verify_access_token, joseDecode]
      · by_cases he : e < now <;> simp [verify_access_token, joseDecode, he]
    · rcases uid with _ | u <;> rcases ex with _ | e
      · simp [verify_access_token, joseDecode]
      · by_cases he : e < now <;> simp [verify_access_token, joseDecode, he]
      · simp [verify_access_token, joseDecode]
      · by_cases he : e < now <;> simp [verify_access_token, joseDecode, he]

/-- Witness for C3: all four failure shapes evaluated at concrete tokens,
each yielding the same verdict. -/
theorem invalid_token_single_verdict_witness :
    verify_access_token
      (Jwt.signed ALGORITHM ⟨some 1, some "steam", some 99⟩
        ("forged", ALGORITHM, ⟨some 1, some "steam", some 99⟩)) 0 =
      Except.ok none
  ∧ verify_access_token (Jwt.malformed "x.y") 0 = Except.ok none
  ∧ verify_access_token
      (Jwt.signed ALGORITHM ⟨some 1, some "steam", some 99⟩
        (jwtSign "other-secret" ALGORITHM ⟨some 1, some "steam", some 99⟩)) 0 =
      Except.ok none
  ∧ verify_access_token
      (Jwt.signed ALGORITHM ⟨none, some "steam", some 99⟩
        (jwtSign SECRET_KEY ALGORITHM ⟨none, some "steam", some 99⟩)) 0 =
      Except.ok none :=
  ⟨invalid_token_single_verdict.1 _ _ 0 (by decide),
   invalid_token_single_verdict.2.1 "x.y" 0,
   invalid_token_single_verdict.2.2.1 "other-secret" _ 0 (by decide),
   invalid_token_single_verdict.2.2.2 _ 0 (Or.inl rfl)⟩

/-- Claim C4: once the clock used by verification advances strictly past the
minted token's `exp = now + delta`, `verify_access_token` returns the
Invalid verdict. The ambient UTC clock the source reads inside the `jose`
library is the explicit `now2` argument of the embedding. -/
theorem verify_rejects_expired (u : Int) (pr : String)
    (d : Option Int) (now now2 : Int)
    (h : now + tokenDelta d < now2) :
    verify_access_token (create_access_token u pr d now) now2 =
      Except.ok none := by
  simp [verify_access_token, create_access_token, joseDecode, h]

/-- Witness for C4: a token minted at `now = 0` with a 10-second ttl is
Invalid at `now2 = 11`. -/
theorem verify_rejects_expired_witness :
    verify_access_token (create_access_token 7 "steam" (some 10) 0) 11 =
      Except.ok none :=
  verify_rejects_expired 7 "steam" (some 10) 0 11 (by decide)

/-! ### Lemmas about substring search and identifier extraction -/

theorem searchSteamId_sound :
    ∀ l ds : List Char, searchSteamId l = some ds →
      ∃ pre nl, l = pre ++ steamidPat ++ ds ++ nl ∧ (nl = [] ∨ nl = ['\n'])
        ∧ ds ≠ [] ∧ ds.all isUnicodeDigit = true
  | [], ds, h => by simp [searchSteamId] at h
  | c :: cs, ds, h => by
    have hrec : searchSteamId cs = some ds →
        ∃ pre nl, c :: cs = pre ++ steamidPat ++ ds ++ nl ∧
          (nl = [] ∨ nl = ['\n']) ∧ ds ≠ [] ∧ ds.all isUnicodeDigit = true := by
      intro h2
      obtain ⟨pre, nl, hpre, hnl, h1, hd⟩ := searchSteamId_sound cs ds h2
      exact ⟨c :: pre, nl, by rw [hpre]; rfl, hnl, h1, hd⟩
    simp only [searchSteamId] at h
    split at h
    · next hp =>
      obtain ⟨t, ht⟩ := List.isPrefixOf_iff_prefix.mp hp
      have hrest : (c :: cs).drop steamidPat.length = t := by
        rw [← ht, List.drop_left]
      rw [hrest] at h
      split at h
      · next hq =>
        split at h
        · next hcore =>
          injection h with h
          subst h
          have hne : t ≠ [] := by
            intro hcon
            rw [hcon] at hq
            simp at hq
          have ht2 : t = t.dropLast ++ ['\n'] := by
            have hcat := List.dropLast_concat_getLast hne
            have hgl : t.getLast hne = '\n' := by
              have hq2 := List.getLast?_eq_getLast t hne
              rw [hq2] at hq
              injection hq
            rw [hgl] at hcat
            exact hcat.symm
          refine ⟨[], ['\n'], ?_, Or.inr rfl, hcore.1, by simpa using hcore.2⟩
          rw [← ht, ht2]
          simp [List.append_assoc]
        · exact hrec h
      · next hq =>
        split at h
        · next hcore =>
          injection h with h
          subst h
          refine ⟨[], [], ?_, Or.inl rfl, hcore.1, by simpa using hcore.2⟩
          rw [← ht]
          simp
        · exact hrec h
    · exact hrec h

theorem searchSteamId_complete :
    ∀ pre ds nl : List Char, ds ≠ [] → ds.all isUnicodeDigit = true →
      nl = [] ∨ nl = ['\n'] →
      searchSteamId (pre ++ steamidPat ++ ds ++ nl) ≠ none
  | [], ds, nl, hne, hdig, hnl => by
    have h0 : ([] : List Char) ++ steamidPat ++ ds ++ nl =
        steamidPat ++ (ds ++ nl) := by
      simp [List.append_assoc]
    have hcons : steamidPat ++ (ds ++ nl) =
        's' :: ("teamid/".data ++ (ds ++ nl)) := rfl
    have hp : steamidPat.isPrefixOf
        ('s' :: ("teamid/".data ++ (ds ++ nl))) = true := by
      rw [List.isPrefixOf_iff_prefix, ← hcons]
      exact List.prefix_append _ _
    have hdrop : ('s' :: ("teamid/".data ++ (ds ++ nl))).drop
        steamidPat.length = ds ++ nl := by
      rw [← hcons, List.drop_left]
    rw [h0, hcons]
    simp only [searchSteamId, hp, if_true, hdrop]
    rcases hnl with hnl | hnl <;> subst hnl
    · have hgl : ¬ ((ds ++ ([] : List Char)).getLast? = some '\n') := by
        intro hcon
        rw [List.append_nil] at hcon
        have hm := List.mem_of_getLast?_eq_some hcon
        have hd := List.all_eq_true.mp hdig _ hm
        exact absurd hd (by decide)
      rw [if_neg hgl]
      simp [hne, hdig]
    · rw [if_pos (List.getLast?_concat _)]
      rw [List.dropLast_concat]
      simp [hne, hdig]
  | c :: pre, ds, nl, hne, hdig, hnl => by
    have ih := searchSteamId_complete pre ds nl hne hdig hnl
    show searchSteamId (c :: (pre ++ steamidPat ++ ds ++ nl)) ≠ none
    simp only [searchSteamId]
    split
    · split
      · split
        · simp
        · simpa [List.append_assoc] using ih
      · split
        · simp
        · simpa [List.append_assoc] using ih
    · simpa [List.append_assoc] using ih

theorem isPrefixOf_extend {n l : List Char} (t : List Char)
    (h : n.isPrefixOf l = true) : n.isPrefixOf (l ++ t) = true := by
  rw [List.isPrefixOf_iff_prefix] at h ⊢
  exact h.trans (List.prefix_append l t)

theorem containsSub_append_left {n l : List Char} (t : List Char)
    (h : containsSub n l = true) : containsSub n (l ++ t) = true := by
  induction l with
  | nil =>
    simp only [containsSub, List.isEmpty_iff] at h
    subst h
    cases t <;> simp [containsSub]
  | cons c cs ih =>
    simp only [containsSub, Bool.or_eq_true] at h
    simp only [List.cons_append, containsSub, Bool.or_eq_true]
    rcases h with h | h
    · exact Or.inl (isPrefixOf_extend t h)
    · exact Or.inr (ih h)

theorem containsSub_append_right {n t : List Char} (l : List Char)
    (h : containsSub n t = true) : containsSub n (l ++ t) = true := by
  induction l with
  | nil => simpa using h
  | cons c cs ih =>
    simp only [List.cons_append, containsSub, Bool.or_eq_true]
    exact Or.inr ih

/-! ### Theorems for the callback verifier -/

/-- Branch normal form of `SteamProvider.verify_callback`: accept iff the
round-trip answered 200 with the validity marker, then extract. -/
theorem verify_callback_eq (query : Params) (post : Params → HttpResponse) :
    SteamProvider.verify_callback query post =
      if (post (build_verification_params query)).status_code = 200 ∧
          strContains (post (build_verification_params query)).text "is_valid:true" = true then
        match searchSteamId (dictGetD query "openid.claimed_id" "").data with
        | some ds => some (String.mk ds)
        | none => none
      else none := by
  unfold SteamProvider.verify_callback
  by_cases h1 : (post (build_verification_params query)).status_code = 200 <;>
    by_cases h2 :
        strContains (post (build_verification_params query)).text "is_valid:true" = true <;>
      simp [h1, h2]

/-- Claim C5: `verify_callback` returns Rejected (`none`) whenever the
provider's verification response has a status other than 200 or a body
without the literal substring `is_valid:true` — in particular on a
200-status response lacking the marker — and the verdict depends on the
body only through the presence of that marker. -/
theorem verify_callback_rejects_unconfirmed :
    (∀ (query : Params) (resp : HttpResponse),
        resp.status_code ≠ 200 ∨ strContains resp.text "is_valid:true" = false →
        SteamProvider.verify_callback query (fun _ => resp) = none)
  ∧ (∀ (query : Params) (r r' : HttpResponse),
        r.status_code = 200 → r'.status_code = 200 →
        strContains r.text "is_valid:true" = strContains r'.text "is_valid:true" →
        SteamProvider.verify_callback query (fun _ => r) =
          SteamProvider.verify_callback query (fun _ => r')) := by
  constructor
  · intro query resp h
    rw [verify_callback_eq]
    rcases h with h | h
    · simp [h]
    · simp [h]
  · intro query r r' h1 h2 h3
    rw [verify_callback_eq, verify_callback_eq]
    simp only [h1, h2, h3, true_and]

/-- Witness for C5: a 500-status response, and a 200-status response whose
body lacks the marker, are both Rejected; two accepting responses with
different bodies agree. -/
theorem verify_callback_rejects_unconfirmed_witness :
    SteamProvider.verify_callback [] (fun _ => ⟨500, "is_valid:true"⟩) = none
  ∧ SteamProvider.verify_callback [] (fun _ => ⟨200, "is_valid:false"⟩) = none
  ∧ SteamProvider.verify_callback
      [("openid.claimed_id", "p/steamid/42")] (fun _ => ⟨200, "is_valid:true"⟩) =
    SteamProvider.verify_callback
      [("openid.claimed_id", "p/steamid/42")] (fun _ => ⟨200, "ns:x is_valid:true extra"⟩) :=
  ⟨verify_callback_rejects_unconfirmed.1 [] ⟨500, "is_valid:true"⟩ (Or.inl (by decide)),
   verify_callback_rejects_unconfirmed.1 [] ⟨200, "is_valid:false"⟩ (Or.inr (by rfl)),
   verify_callback_rejects_unconfirmed.2 [("openid.claimed_id", "p/steamid/42")]
     ⟨200, "is_valid:true"⟩ ⟨200, "ns:x is_valid:true extra"⟩ rfl rfl (by rfl)⟩

/-- The model, like CPython, accepts a claimed id whose identifier ends in
a non-ASCII decimal digit (here U+0665 ARABIC-INDIC DIGIT FIVE): `\d`
covers every Unicode Nd digit. -/
theorem unicode_digit_claimed_id_accepted :
    SteamProvider.verify_callback [("openid.claimed_id", "p/steamid/٥")]
      (fun _ => ⟨200, "is_valid:true"⟩) = some "٥" := rfl

/-- Claim C6 as amended: `verify_callback` returns Rejected (`none`)
whenever the callback's `openid.claimed_id` is absent (the code then
searches the default `""`) or does not end in `steamid/` followed by one
or more decimal digits (Unicode category Nd, the class Python's `\d`
matches) optionally followed by a single trailing newline (the Python `$`
anchor also matches just before a final newline), no matter what the
provider round-trip answered. -/
theorem verify_callback_rejects_bad_claimed_id (query : Params)
    (post : Params → HttpResponse)
    (h : ¬ ∃ pre ds nl, (dictGetD query "openid.claimed_id" "").data =
          pre ++ steamidPat ++ ds ++ nl ∧ (nl = [] ∨ nl = ['\n'])
          ∧ ds ≠ [] ∧ ds.all isUnicodeDigit = true) :
    SteamProvider.verify_callback query post = none := by
  rw [verify_callback_eq]
  split
  · cases hs : searchSteamId (dictGetD query "openid.claimed_id" "").data with
    | none => rfl
    | some ds =>
      obtain ⟨pre, nl, hdec, hnl, h1, h2⟩ := searchSteamId_sound _ ds hs
      exact absurd ⟨pre, ds, nl, hdec, hnl, h1, h2⟩ h
  · rfl

/-- Witness for C6: a claimed id whose trailing segment after `steamid/` is
not all digits is Rejected even though the provider answered
`is_valid:true` with status 200. -/
theorem verify_callback_rejects_bad_claimed_id_witness :
    SteamProvider.verify_callback [("openid.claimed_id", "x/steamid/12a")]
      (fun _ => ⟨200, "is_valid:true"⟩) = none :=
  verify_callback_rejects_bad_claimed_id _ _ (by
    rintro ⟨pre, ds, nl, hdec, hnl, hne, hdig⟩
    have hcomp := searchSteamId_complete pre ds nl hne hdig hnl
    rw [← hdec] at hcomp
    exact hcomp (by rfl))

/-- Counterexample to claim C6 as stated: the callback value
`"p/steamid/12\n"` does not end in a digit — there is no decomposition
`prefix ++ "steamid/" ++ digits` reaching the end of the string — yet the
code accepts it and returns `"12"`, because Python's `$` matches before a
single final newline. -/
theorem trailing_newline_claimed_id_accepted :
    SteamProvider.verify_callback [("openid.claimed_id", "p/steamid/12\n")]
      (fun _ => ⟨200, "is_valid:true"⟩) = some "12"
  ∧ ¬ ∃ pre ds, ("p/steamid/12\n" : String).data = pre ++ steamidPat ++ ds
        ∧ ds ≠ [] ∧ ds.all isUnicodeDigit = true := by
  constructor
  · rfl
  · rintro ⟨pre, ds, hdec, hne, hdig⟩
    have hlast : (("p/steamid/12\n" : String).data).getLast? = some '\n' := by rfl
    rw [hdec, List.getLast?_append] at hlast
    obtain ⟨d, hd⟩ := Option.isSome_iff_exists.mp (List.getLast?_isSome.mpr hne)
    rw [hd] at hlast
    simp only [Option.or_some] at hlast
    injection hlast with hlast
    have hdm := List.mem_of_getLast?_eq_some hd
    have hdd := List.all_eq_true.mp hdig _ hdm
    rw [hlast] at hdd
    exact absurd hdd (by decide)

/-- Claim C10: whenever `verify_callback` accepts, the returned identifier
is a nonempty string of decimal digits (Unicode Nd, Python's `\d`), it is
the digit run after `steamid/` at the end of the caller-supplied
`openid.claimed_id` (up to the single trailing newline Python's `$`
tolerates), and it does not depend on the provider's verification
response: every accepting response yields the same identifier. -/
theorem verify_callback_id_from_claimed_id (query : Params)
    (post : Params → HttpResponse) (sid : String)
    (h : SteamProvider.verify_callback query post = some sid) :
    sid.data ≠ [] ∧ sid.data.all isUnicodeDigit = true
  ∧ (∃ pre nl, (dictGetD query "openid.claimed_id" "").data =
        pre ++ steamidPat ++ sid.data ++ nl ∧ (nl = [] ∨ nl = ['\n']))
  ∧ (∀ r : HttpResponse, r.status_code = 200 →
        strContains r.text "is_valid:true" = true →
        SteamProvider.verify_callback query (fun _ => r) = some sid) := by
  rw [verify_callback_eq] at h
  split at h
  · cases hs : searchSteamId (dictGetD query "openid.claimed_id" "").data with
    | none => rw [hs] at h; cases h
    | some ds =>
      rw [hs] at h
      injection h with h
      obtain ⟨pre, nl, hdec, hnl, h1, h2⟩ := searchSteamId_sound _ ds hs
      subst h
      refine ⟨h1, h2, ⟨pre, nl, hdec, hnl⟩, ?_⟩
      intro r h200 hmark
      rw [verify_callback_eq]
      simp only [h200, hmark, and_self, if_true, hs]
  · cases h

/-- Witness for C10 at a concrete accepted callback. -/
theorem verify_callback_id_from_claimed_id_witness :
    ("12345" : String).data ≠ []
  ∧ ("12345" : String).data.all isUnicodeDigit = true
  ∧ (∃ pre nl,
      (dictGetD [("openid.claimed_id", "p/steamid/12345")] "openid.claimed_id" "").data =
        pre ++ steamidPat ++ ("12345" : String).data ++ nl ∧ (nl = [] ∨ nl = ['\n']))
  ∧ (∀ r : HttpResponse, r.status_code = 200 →
        strContains r.text "is_valid:true" = true →
        SteamProvider.verify_callback [("openid.claimed_id", "p/steamid/12345")]
          (fun _ => r) = some "12345") :=
  verify_callback_id_from_claimed_id [("openid.claimed_id", "p/steamid/12345")]
    (fun _ => ⟨200, "is_valid:true"⟩) "12345" (by rfl)

/-- Claim C1 (the code contradicts it): the verification parameter set is
seeded with `openid.mode ↦ "check_auth"` but the copy loop then overwrites
it with the client-supplied `openid.mode`, so the POSTed mode is the
client's value, not `"check_auth"`. Evaluated at a callback carrying
`openid.mode = "id_res"`. -/
theorem posted_mode_is_client_mode :
    build_verification_params
        [("openid.mode", "id_res"),
         ("openid.claimed_id", "https://example.org/steamid/76561198000000001")] =
      [("openid.ns", "http://specs.openid.net/auth/2.0"),
       ("openid.mode", "id_res"),
       ("openid.claimed_id", "https://example.org/steamid/76561198000000001")]
  ∧ dictGet (build_verification_params [("openid.mode", "id_res")]) "openid.mode" =
      some "id_res" := by
  constructor <;> rfl

/-! ### Theorems for the orchestrating callback handler -/

/-- Claim C7: whenever verification fails (`verify_callback` returns
`none`, e.g. because the provider answered 200 `is_valid:false`),
`steam_callback` aborts with the 401 "Steam verification failed" error and
its post-verification effect trace is empty: no profile fetch and no
database operation happens. -/
theorem callback_aborts_on_failed_verification (query_params : Params)
    (post : Params → HttpResponse)
    (api_key : Option String) (get : Params → SteamApiResponse)
    (db : List DbUser) (next_id now : Int)
    (h : SteamProvider.verify_callback query_params post = none) :
    steam_callback query_params post api_key get db next_id now =
      (.error ⟨401, "Steam verification failed"⟩, []) := by
  unfold steam_callback
  rw [h]

/-- Witness for C7: the provider mock answers status 200 with body
`is_valid:false`; the flow aborts with 401 and an empty effect trace. -/
theorem callback_aborts_on_failed_verification_witness :
    steam_callback [("openid.mode", "id_res"), ("openid.claimed_id", "p/steamid/42")]
      (fun _ => ⟨200, "is_valid:false"⟩) (some "apikey")
      (fun _ => ⟨200, ⟨some ⟨some [⟨some "Alice", some "https://x/a.jpg"⟩]⟩⟩⟩)
      [] 1 0 =
      (.error ⟨401, "Steam verification failed"⟩, []) :=
  callback_aborts_on_failed_verification _ _ _ _ _ _ _ (by rfl)

/-- Claim C8: `get_user_info` returns `none` for a missing (or empty)
API credential, for a non-200 response, and for a reachable provider whose
player list is empty; on success it copies the first player's
`personaname` and `avatarfull` fields as they are, leaving missing
optional fields `none`. -/
theorem get_user_info_shapes :
    (∀ (sid : String) (key : Option String) (get : Params → SteamApiResponse),
        key = none ∨ key = some "" →
        SteamProvider.get_user_info sid key get = none)
  ∧ (∀ (sid : String) (key : Option String) (r : SteamApiResponse),
        r.status_code ≠ 200 →
        SteamProvider.get_user_info sid key (fun _ => r) = none)
  ∧ (∀ (sid : String) (key : Option String) (r : SteamApiResponse),
        playersOf r.body = [] →
        SteamProvider.get_user_info sid key (fun _ => r) = none)
  ∧ (∀ (sid : String) (key : Option String) (r : SteamApiResponse)
        (p : SteamPlayer) (rest : List SteamPlayer),
        ¬ (key = none ∨ key = some "") → r.status_code = 200 →
        playersOf r.body = p :: rest →
        SteamProvider.get_user_info sid key (fun _ => r) =
          some ⟨sid, p.personaname, p.avatarfull⟩) := by
  refine ⟨?_, ?_, ?_, ?_⟩
  · intro sid key get h
    simp [SteamProvider.get_user_info, h]
  · intro sid key r h
    by_cases hk : key = none ∨ key = some "" <;>
      simp [SteamProvider.get_user_info, hk, h]
  · intro sid key r h
    by_cases hk : key = none ∨ key = some "" <;>
      by_cases hs : r.status_code = 200 <;>
        simp [SteamProvider.get_user_info, hk, hs, h]
  · intro sid key r p rest hk hs hp
    simp [SteamProvider.get_user_info, hk, hs, hp]

/-- Witness for C8: the four shapes at concrete inputs — missing
credential, HTTP 500, empty player list, and a success whose player has no
`personaname` (left `none` in the result, not fabricated). -/
theorem get_user_info_shapes_witness :
    SteamProvider.get_user_info "42" none (fun _ => ⟨200, ⟨none⟩⟩) = none
  ∧ SteamProvider.get_user_info "42" (some "k") (fun _ => ⟨500, ⟨none⟩⟩) = none
  ∧ SteamProvider.get_user_info "42" (some "k")
      (fun _ => ⟨200, ⟨some ⟨some []⟩⟩⟩) = none
  ∧ SteamProvider.get_user_info "42" (some "k")
      (fun _ => ⟨200, ⟨some ⟨some [⟨none, some "https://x/a.jpg"⟩]⟩⟩⟩) =
      some ⟨"42", none, some "https://x/a.jpg"⟩ :=
  ⟨get_user_info_shapes.1 "42" none _ (Or.inl rfl),
   get_user_info_shapes.2.1 "42" (some "k") ⟨500, ⟨none⟩⟩ (by decide),
   get_user_info_shapes.2.2.1 "42" (some "k") ⟨200, ⟨some ⟨some []⟩⟩⟩ rfl,
   get_user_info_shapes.2.2.2 "42" (some "k")
     ⟨200, ⟨some ⟨some [⟨none, some "https://x/a.jpg"⟩]⟩⟩⟩
     ⟨none, some "https://x/a.jpg"⟩ [] (by simp) rfl rfl⟩

/-- `quote_plus` distributes over concatenation. -/
theorem qpList_append (x y : List Char) :
    qpList (x ++ y) = qpList x ++ qpList y := by
  simp [qpList]

set_option maxRecDepth 40000 in
/-- The login URL splits into the fixed Steam endpoint and encoded
constant parameters around the two configuration-dependent encoded
values (the return-to URL and the realm). -/
theorem get_login_url_decomp (b : String) :
    (SteamProvider.get_login_url b).data =
      ("https://steamcommunity.com/openid/login?openid.ns=http%3A%2F%2Fspecs.openid.net%2Fauth%2F2.0&openid.mode=checkid_setup&openid.return_to=").data
      ++ (qpList (b ++ "/auth/steam/callback").data
      ++ (("&openid.realm=").data
      ++ (qpList b.data
      ++ ("&openid.identity=http%3A%2F%2Fspecs.openid.net%2Fauth%2F2.0%2Fidentifier_select&openid.claimed_id=http%3A%2F%2Fspecs.openid.net%2Fauth%2F2.0%2Fidentifier_select").data))) := by
  have key : ∀ u v : List Char,
      ("https://steamcommunity.com/openid/login" ++ "?" ++ urlencode
          [("openid.ns", "http://specs.openid.net/auth/2.0"),
           ("openid.mode", "checkid_setup"),
           ("openid.return_to", String.mk u),
           ("openid.realm", String.mk v),
           ("openid.identity", "http://specs.openid.net/auth/2.0/identifier_select"),
           ("openid.claimed_id", "http://specs.openid.net/auth/2.0/identifier_select")]).data
        = ("https://steamcommunity.com/openid/login?openid.ns=http%3A%2F%2Fspecs.openid.net%2Fauth%2F2.0&openid.mode=checkid_setup&openid.return_to=").data
          ++ (qpList u
          ++ (("&openid.realm=").data
          ++ (qpList v
          ++ ("&openid.identity=http%3A%2F%2Fspecs.openid.net%2Fauth%2F2.0%2Fidentifier_select&openid.claimed_id=http%3A%2F%2Fspecs.openid.net%2Fauth%2F2.0%2Fidentifier_select").data))) := by
    intro u v
    simp only [urlencode, List.map, String.intercalate, String.intercalate.go,
      quote_plus, String.data_append]
    simp only [qpList, List.map, List.flatten, quotePlusChar, utf8Bytes,
      percentByte, hexDigit]
    simp [List.append_assoc]
  have h0 := key (b ++ "/auth/steam/callback").data b.data
  have hu : String.mk (b ++ "/auth/steam/callback").data =
      b ++ "/auth/steam/callback" := rfl
  have hv : String.mk b.data = b := rfl
  rw [hu, hv] at h0
  exact h0

set_option maxRecDepth 40000 in
/-- Claim C9: `get_login_url` is pure and deterministic — it is a function
of the configuration alone, so two calls with the same `BACKEND_URL` give
byte-identical output — and its parameter dict always carries the
protocol-mandated fields (namespace, mode `checkid_setup`, return-to,
realm, and the identifier-select marker as both identity and claimed id);
the encoded output string itself always contains those fields, for every
configuration. At the source's default configuration the full output is
the expected byte string. -/
theorem login_url_deterministic_fields :
    (∀ b : String, SteamProvider.get_login_url b = SteamProvider.get_login_url b)
  ∧ (∀ b : String,
      dictGet (login_params b) "openid.ns" =
        some "http://specs.openid.net/auth/2.0"
    ∧ dictGet (login_params b) "openid.mode" = some "checkid_setup"
    ∧ dictGet (login_params b) "openid.return_to" =
        some (b ++ "/auth/steam/callback")
    ∧ dictGet (login_params b) "openid.realm" = some b
    ∧ dictGet (login_params b) "openid.identity" =
        some "http://specs.openid.net/auth/2.0/identifier_select"
    ∧ dictGet (login_params b) "openid.claimed_id" =
        some "http://specs.openid.net/auth/2.0/identifier_select")
  ∧ (∀ b : String,
      strContains (SteamProvider.get_login_url b)
        "openid.ns=http%3A%2F%2Fspecs.openid.net%2Fauth%2F2.0" = true
    ∧ strContains (SteamProvider.get_login_url b)
        "openid.mode=checkid_setup" = true
    ∧ strContains (SteamProvider.get_login_url b) "openid.return_to=" = true
    ∧ strContains (SteamProvider.get_login_url b) "openid.realm=" = true
    ∧ strContains (SteamProvider.get_login_url b)
        "openid.identity=http%3A%2F%2Fspecs.openid.net%2Fauth%2F2.0%2Fidentifier_select" = true
    ∧ strContains (SteamProvider.get_login_url b)
        "openid.claimed_id=http%3A%2F%2Fspecs.openid.net%2Fauth%2F2.0%2Fidentifier_select" = true)
  ∧ SteamProvider.get_login_url "http://localhost:8000" =
      "https://steamcommunity.com/openid/login?openid.ns=http%3A%2F%2Fspecs.openid.net%2Fauth%2F2.0&openid.mode=checkid_setup&openid.return_to=http%3A%2F%2Flocalhost%3A8000%2Fauth%2Fsteam%2Fcallback&openid.realm=http%3A%2F%2Flocalhost%3A8000&openid.identity=http%3A%2F%2Fspecs.openid.net%2Fauth%2F2.0%2Fidentifier_select&openid.claimed_id=http%3A%2F%2Fspecs.openid.net%2Fauth%2F2.0%2Fidentifier_select" :=
  ⟨fun _ => rfl,
   fun _ => ⟨rfl, rfl, rfl, rfl, rfl, rfl⟩,
   fun b => by
    have hd := get_login_url_decomp b
    refine ⟨?_, ?_, ?_, ?_, ?_, ?_⟩ <;>
      show containsSub _ (SteamProvider.get_login_url b).data = true <;>
        rw [hd]
    · exact containsSub_append_left _ (by rfl)
    · exact containsSub_append_left _ (by rfl)
    · exact containsSub_append_left _ (by rfl)
    · exact containsSub_append_right _ (containsSub_append_right _
        (containsSub_append_left _ (by rfl)))
    · exact containsSub_append_right _ (containsSub_append_right _
        (containsSub_append_right _ (containsSub_append_right _ (by rfl))))
    · exact containsSub_append_right _ (containsSub_append_right _
        (containsSub_append_right _ (containsSub_append_right _ (by rfl)))),
   by rfl⟩
